import Mathlib

set_option maxRecDepth 8192

/-!
Shallow embedding of the terraform-provider-proxmox-ve repository
(src/internal/provider/provider.go and
src/internal/provider/vm_config_data_source.go), together with theorems
settling the frozen claims about its specification.

Machine integers are modelled as `Int` with explicit range checks where the
Go code checks them (strconv.ParseInt with bitSize 32). Terraform framework
attribute values (types.String / types.Int32 / types.Bool) are modelled by
the tri-state `TFValue`. Diagnostics are lists of `Diag` records; the
framework method Diagnostics.Append skips exact duplicates, which `addDiag`
reproduces. Go panics (out-of-range slice indexing) are modelled by
`Option`, with `none` for the panic.
-/

/-- Tri-state Terraform attribute value: null, unknown, or a known value.
Mirrors types.String, types.Int32 and types.Bool of the plugin framework. -/
inductive TFValue (α : Type) where
  | null : TFValue α
  | unknown : TFValue α
  | value : α → TFValue α
deriving DecidableEq

/-- Mirrors the IsNull method of framework values. -/
def TFValue.isNull {α : Type} : TFValue α → Bool
  | .null => true
  | _ => false

/-- Mirrors the IsUnknown method of framework values. -/
def TFValue.isUnknown {α : Type} : TFValue α → Bool
  | .unknown => true
  | _ => false

/-- Mirrors ValueString: the known value, or the empty string when null or
unknown. -/
def TFValue.valueString : TFValue String → String
  | .value s => s
  | _ => ""

/-- Mirrors ValueInt32 (here over `Int`): the known value, or 0. -/
def TFValue.valueInt : TFValue Int → Int
  | .value n => n
  | _ => 0

/-- Mirrors ValueBool: the known value, or false when null or unknown. -/
def TFValue.valueBool : TFValue Bool → Bool
  | .value b => b
  | _ => false

/-- One framework diagnostic (all diagnostics produced by this provider are
errors). `attrPath` is the attribute path of AddAttributeError, `none` for
AddError. -/
structure Diag where
  summary : String
  detail : String
  attrPath : Option String
deriving DecidableEq

/-- Mirrors Diagnostics.Append as used by AddError / AddAttributeError: the
new diagnostic is appended unless an identical one is already present. -/
def addDiag (ds : List Diag) (d : Diag) : List Diag :=
  if d ∈ ds then ds else ds ++ [d]

/-- Mirrors Diagnostics.HasError: all diagnostics in this provider are
errors, so this is nonemptiness. -/
def hasError (ds : List Diag) : Bool :=
  !ds.isEmpty

/-- Character-list core of Go strings.Split for a one-character separator. -/
def splitChars (sep : Char) : List Char → List (List Char)
  | [] => [[]]
  | c :: cs =>
    if c = sep then [] :: splitChars sep cs
    else
      match splitChars sep cs with
      | [] => [[c]]
      | s :: ss => (c :: s) :: ss

/-- Go strings.Split with a one-character separator. -/
def goSplit (s : String) (sep : Char) : List String :=
  (splitChars sep s.data).map String.mk

/-- Go %q-style quoting as it appears in strconv error messages (the values
quoted in this development need no escaping). -/
def goQuote (s : String) : String :=
  "\"" ++ s ++ "\""

/-- Error text of Go strconv.ParseInt on a syntax error. -/
def parseIntSyntaxErr (s : String) : String :=
  "strconv.ParseInt: parsing " ++ goQuote s ++ ": invalid syntax"

/-- Error text of Go strconv.ParseInt on a range error. -/
def parseIntRangeErr (s : String) : String :=
  "strconv.ParseInt: parsing " ++ goQuote s ++ ": value out of range"

/-- Error text of Go strconv.ParseBool on a syntax error. -/
def parseBoolSyntaxErr (s : String) : String :=
  "strconv.ParseBool: parsing " ++ goQuote s ++ ": invalid syntax"

/-- Accumulator loop for reading a base-10 digit string. -/
def digitsAcc : List Char → Nat → Option Nat
  | [], acc => some acc
  | c :: cs, acc =>
    if c.isDigit then digitsAcc cs (acc * 10 + (c.toNat - 48))
    else none

/-- Reads a nonempty base-10 digit string; `none` on the empty string or any
non-digit character, as in Go strconv.ParseUint for base 10. -/
def digitsToNat (cs : List Char) : Option Nat :=
  match cs with
  | [] => none
  | _ => digitsAcc cs 0

/-- Go strconv.ParseBool: accepts exactly the listed literals. -/
def goParseBool (s : String) : Except String Bool :=
  if s = "1" ∨ s = "t" ∨ s = "T" ∨ s = "TRUE" ∨ s = "true" ∨ s = "True" then
    Except.ok true
  else if s = "0" ∨ s = "f" ∨ s = "F" ∨ s = "FALSE" ∨ s = "false" ∨ s = "False" then
    Except.ok false
  else
    Except.error (parseBoolSyntaxErr s)

/-- Go strconv.ParseInt(s, 10, 32): optional sign, nonempty base-10 digits,
and a 32-bit signed range check. -/
def goParseInt32 (s : String) : Except String Int :=
  match s.data with
  | [] => Except.error (parseIntSyntaxErr s)
  | c :: cs =>
    let digits := if c = '+' ∨ c = '-' then cs else c :: cs
    match digitsToNat digits with
    | none => Except.error (parseIntSyntaxErr s)
    | some n =>
      let v : Int := if c = '-' then -(n : Int) else (n : Int)
      if v < -(2 ^ 31) ∨ 2 ^ 31 - 1 < v then Except.error (parseIntRangeErr s)
      else Except.ok v

/-- True exactly on Except.ok. -/
def isOk {ε α : Type} : Except ε α → Bool
  | .ok _ => true
  | .error _ => false

/-- vmConfigDataSourceNetworkInterfaceModel: one parsed network interface.
Optional attributes are `none` when unset (framework null). -/
structure NetworkInterfaceModel where
  bridge : Option String := none
  firewall : Option Bool := none
  hardwareAddress : Option String := none
  linkDown : Option Bool := none
  model : Option String := none
  mtu : Option Int := none
  queues : Option Int := none
  rate : Option Int := none
  rawConfig : Option String := none
  tag : Option Int := none
  trunks : Option (List Int) := none
deriving DecidableEq

/-- The diagnostic built by parseNetworkConfig for a failed coercion of the
named key. -/
def netDiag (key errMsg : String) : Diag :=
  { summary := "Unexpected VM Config Value"
    detail := "The value for the \u0027" ++ key ++
      "\u0027 property for the network interface was not expected: " ++ errMsg
    attrPath := none }

/-- The trunks loop of parseNetworkConfig: each semicolon-separated element
is parsed independently; failures are reported and skipped. -/
def trunksLoop : List String → List Int → List Diag → List Int × List Diag
  | [], ts, ds => (ts, ds)
  | t :: rest, ts, ds =>
    match goParseInt32 t with
    | .error e => trunksLoop rest ts (addDiag ds (netDiag "trunks" e))
    | .ok v => trunksLoop rest (ts ++ [v]) ds

/-- The switch statement of parseNetworkConfig, applied to one key/value
pair. A failed coercion adds a diagnostic and leaves the field unset
(the continue statement); unrecognized keys are ignored. -/
def applyKey (iface : NetworkInterfaceModel) (ds : List Diag) (key value : String) :
    NetworkInterfaceModel × List Diag :=
  if key = "model" then ({ iface with model := some value }, ds)
  else if key = "bridge" then ({ iface with bridge := some value }, ds)
  else if key = "firewall" then
    match goParseBool value with
    | .error e => (iface, addDiag ds (netDiag "firewall" e))
    | .ok b => ({ iface with firewall := some b }, ds)
  else if key = "link_down" then
    match goParseBool value with
    | .error e => (iface, addDiag ds (netDiag "link_down" e))
    | .ok b => ({ iface with linkDown := some b }, ds)
  else if key = "macaddr" ∨ key = "virtio" then
    ({ iface with hardwareAddress := some value }, ds)
  else if key = "mtu" then
    match goParseInt32 value with
    | .error e => (iface, addDiag ds (netDiag "mtu" e))
    | .ok v => ({ iface with mtu := some v }, ds)
  else if key = "queues" then
    match goParseInt32 value with
    | .error e => (iface, addDiag ds (netDiag "queues" e))
    | .ok v => ({ iface with queues := some v }, ds)
  else if key = "rate" then
    match goParseInt32 value with
    | .error e => (iface, addDiag ds (netDiag "rate" e))
    | .ok v => ({ iface with rate := some v }, ds)
  else if key = "tag" then
    match goParseInt32 value with
    | .error e => (iface, addDiag ds (netDiag "tag" e))
    | .ok v => ({ iface with tag := some v }, ds)
  else if key = "trunks" then
    ({ iface with trunks := some (trunksLoop (goSplit value ';') [] ds).1 },
      (trunksLoop (goSplit value ';') [] ds).2)
  else (iface, ds)

/-- The pair split of parseNetworkConfig, with the splitting function as a
parameter (the source uses strings.Split on the equal sign, `eqSplit`; the
specification describes a first-equal-sign split, `firstEqSplit`).
The source reads kv[0] and kv[1] without a length guard: when the split
yields fewer than two components the indexing panics, modelled by `none`. -/
def processPairWith (split : String → List String) (iface : NetworkInterfaceModel)
    (ds : List Diag) (pair : String) : Option (NetworkInterfaceModel × List Diag) :=
  match split pair with
  | key :: value :: _ => some (applyKey iface ds key value)
  | _ => none

/-- The loop of parseNetworkConfig over the comma-separated pairs. -/
def processPairsWith (split : String → List String) :
    List String → NetworkInterfaceModel → List Diag →
    Option (NetworkInterfaceModel × List Diag)
  | [], iface, ds => some (iface, ds)
  | p :: rest, iface, ds =>
    match processPairWith split iface ds p with
    | none => none
    | some (i, d) => processPairsWith split rest i d

/-- The pair split the source performs: strings.Split(pair, "=") — split on
every equal sign. -/
def eqSplit (p : String) : List String :=
  goSplit p '='

/-- parseNetworkConfig with the pair-splitting function as a parameter. -/
def parseNetworkConfigWith (split : String → List String) (config : String)
    (ds : List Diag) : Option (NetworkInterfaceModel × List Diag) :=
  processPairsWith split (goSplit config ',') { rawConfig := some config } ds

/-- parseNetworkConfig of vm_config_data_source.go: the raw line is stored
verbatim, the line is split on commas, and each pair is processed with the
source pair split. `none` models the panic on a pair without an equal
sign. The returned diagnostic list is the one the local Diagnostics copy
inside the function holds on return. -/
def parseNetworkConfig (config : String) (ds : List Diag) :
    Option (NetworkInterfaceModel × List Diag) :=
  parseNetworkConfigWith eqSplit config ds

/-- Splits off the text before the first separator occurrence; `none` when
the separator does not occur. -/
def breakAtSep (sep : Char) : List Char → Option (List Char × List Char)
  | [] => none
  | c :: cs =>
    if c = sep then some ([], cs)
    else
      match breakAtSep sep cs with
      | none => none
      | some (a, b) => some (c :: a, b)

/-- Split on the first separator occurrence only: the key is the text before
it and the value is the entire remaining text. A string without the
separator stays in one piece. -/
def splitFirst (s : String) (sep : Char) : List String :=
  match breakAtSep sep s.data with
  | none => [s]
  | some (a, b) => [String.mk a, String.mk b]

/-- Modelled from the spec: the pair split the specification describes —
split each pair on the FIRST equal sign into key and value, the value
keeping any further equal signs. -/
def firstEqSplit (p : String) : List String :=
  splitFirst p '='

/-- Modelled from the spec: parseNetworkConfig as the specification
describes it, differing from the source only in the pair split. -/
def parseNetworkConfigSpec (config : String) (ds : List Diag) :
    Option (NetworkInterfaceModel × List Diag) :=
  parseNetworkConfigWith firstEqSplit config ds

/-- vmConfigDataSourceFilterModel: the lookup filter. -/
structure FilterModel where
  nodeName : TFValue String
  vmID : TFValue Int
deriving DecidableEq

/-- vmConfigDataSourceDataModel: the computed lookup result. -/
structure DataModel where
  name : TFValue String
  node : TFValue String
  networkInterfaces : List NetworkInterfaceModel
  status : TFValue String
  vmID : TFValue Int
deriving DecidableEq

/-- vmConfigDataSourceModel: the top-level data source model (also the shape
of the configuration the Read method receives and of the state it sets). -/
structure StateModel where
  data : Option DataModel
  filter : Option FilterModel
deriving DecidableEq

/-- The virtual machine record the remote API returns: the fields of the
go-proxmox VirtualMachine the Read method touches. `vmid` is the identifier
stored in the remote record itself, which Read never consults. `vmConfig`
is `none` when VirtualMachineConfig is nil, otherwise the slot-name/line
pairs MergeNets yields, in iteration order. -/
structure VMRecord where
  name : String
  node : String
  status : String
  vmid : Int
  vmConfig : Option (List (String × String))
deriving DecidableEq

/-- One remote API request issued by the Read method. -/
inductive ApiCall where
  | nodeLookup : String → ApiCall
  | vmLookup : String → Int → ApiCall
deriving DecidableEq

/-- The remote API as the Read method consumes it: node resolution by name,
then VM resolution by identifier on that node. -/
structure Api where
  node : String → Except String Unit
  vm : String → Int → Except String VMRecord

/-- The outcome of one Read call: the response diagnostics, the state set
(`none` when Read returned before setting state), and the remote calls
issued, in order. -/
structure ReadResult where
  diags : List Diag
  state : Option StateModel
  apiCalls : List ApiCall
deriving DecidableEq

/-- Diagnostic of Read for a missing filter block. -/
def filterRequiredDiag : Diag :=
  { summary := "Filter Is Required"
    detail := "You must specify a filter to retrieve the VM configuration."
    attrPath := none }

/-- Diagnostic of Read for a null or unknown filter node name. -/
def nodeNameRequiredDiag : Diag :=
  { summary := "Filter Node Name Is Required"
    detail := "You must specify a PVE cluster node name to retrieve the VM configuration."
    attrPath := none }

/-- Diagnostic of Read for a null or unknown filter VM ID. -/
def vmIDRequiredDiag : Diag :=
  { summary := "Filter VM ID Is Required"
    detail := "You must specify a VM ID to retrieve the VM configuration."
    attrPath := none }

/-- Diagnostic of Read when the node lookup fails. -/
def nodeLookupFailedDiag (nodeName err : String) : Diag :=
  { summary := "Proxmox VE API: Failed to Locate Node"
    detail := "Failed to locate the cluster node \u0027" ++ nodeName ++ "\u0027:\n\t" ++ err
    attrPath := none }

/-- Diagnostic of Read when the VM lookup fails. -/
def vmLookupFailedDiag (vmID : Int) (err : String) : Diag :=
  { summary := "Proxmox VE API: Failed to Retrieve VM"
    detail := "Failed to retrieve the virtual machine with the ID \u0027" ++ toString vmID ++
      "\u0027:\n\t" ++ err
    attrPath := none }

/-- The network-interface loop of Read: empty lines are skipped; each other
line is parsed with the CURRENT response diagnostics passed BY VALUE (the
Go parameter is a slice value), so the second component of the parse
result — the locally extended diagnostics — is discarded and never reaches
the response. `none` models a parse panic propagating out of Read. -/
def readNetsLoop (respDiags : List Diag) :
    List (String × String) → List NetworkInterfaceModel →
    Option (List NetworkInterfaceModel)
  | [], ifaces => some ifaces
  | (_, cfg) :: rest, ifaces =>
    if cfg = "" then readNetsLoop respDiags rest ifaces
    else
      match parseNetworkConfig cfg respDiags with
      | none => none
      | some (iface, _) => readNetsLoop respDiags rest (ifaces ++ [iface])

/-- The Read method of the vm_config data source, starting after a
successful Config.Get (so with empty response diagnostics): filter
presence, node-name and VM-ID precondition checks with early return; node
and VM resolution over the remote API; then mapping of the response into
state. `none` models a panic inside the parse loop. -/
def readVMConfig (config : StateModel) (api : Api) : Option ReadResult :=
  match config.filter with
  | none => some { diags := [filterRequiredDiag], state := none, apiCalls := [] }
  | some filter =>
    if filter.nodeName.isNull || filter.nodeName.isUnknown then
      some { diags := [nodeNameRequiredDiag], state := none, apiCalls := [] }
    else
      let nodeName := filter.nodeName.valueString
      if filter.vmID.isNull || filter.vmID.isUnknown then
        some { diags := [vmIDRequiredDiag], state := none, apiCalls := [] }
      else
        let vmID := filter.vmID.valueInt
        match api.node nodeName with
        | .error e =>
          some { diags := [nodeLookupFailedDiag nodeName e], state := none
                 apiCalls := [ApiCall.nodeLookup nodeName] }
        | .ok _ =>
          match api.vm nodeName vmID with
          | .error e =>
            some { diags := [vmLookupFailedDiag vmID e], state := none
                   apiCalls := [ApiCall.nodeLookup nodeName, ApiCall.vmLookup nodeName vmID] }
          | .ok vm =>
            let nets :=
              match vm.vmConfig with
              | none => some []
              | some nets => readNetsLoop [] nets []
            match nets with
            | none => none
            | some ifaces =>
              some { diags := []
                     state := some
                       { data := some
                           { name := TFValue.value vm.name
                             node := TFValue.value vm.node
                             networkInterfaces := ifaces
                             status := TFValue.value vm.status
                             vmID := filter.vmID }
                         filter := some filter }
                     apiCalls := [ApiCall.nodeLookup nodeName, ApiCall.vmLookup nodeName vmID] }

/-- proxmoxveProviderModel: the provider configuration block. -/
structure ProviderModel where
  apiTokenID : TFValue String
  apiTokenSecret : TFValue String
  apiTokenUsername : TFValue String
  endpoint : TFValue String
  ignoreUntrustedSSLCertificate : TFValue Bool
deriving DecidableEq

/-- The API client as constructed by Configure: base URL, combined token
identifier, token secret, and the TLS verification-skip flag. -/
structure ClientConfig where
  baseURL : String
  tokenID : String
  tokenSecret : String
  insecureSkipVerify : Bool
deriving DecidableEq

/-- proxmoxveProviderData: the handle published for data sources and
resources. -/
structure ProviderData where
  client : ClientConfig
  endpoint : String
deriving DecidableEq

/-- The version metadata the remote API returns. -/
structure VersionInfo where
  release : String
  version : String
  repoID : String
deriving DecidableEq

/-- The outcome of one provider Configure call: the response diagnostics,
the published handles (nil when Configure returned early), and how many
times the remote version endpoint was called. -/
structure ConfigureResult where
  diags : List Diag
  dataSourceData : Option ProviderData
  resourceData : Option ProviderData
  versionCalls : Nat
deriving DecidableEq

/-- Shared tail of the unknown-value attribute errors of Configure. -/
def unknownTail : String :=
  " Either target apply the source of the value first, set the value " ++
  "statically in the configuration, or use a variable in the configuration."

/-- Unknown-value diagnostic attributed to api_token_id. -/
def unknownTokenIDDiag : Diag :=
  { summary := "Unknown Proxmox VE API Token ID"
    detail := "The provider cannot create the Proxmox VE API client as there is an unknown configuration value for the API token ID." ++ unknownTail
    attrPath := some "api_token_id" }

/-- Unknown-value diagnostic attributed to api_token_secret. -/
def unknownTokenSecretDiag : Diag :=
  { summary := "Unknown Proxmox VE API Token Secret"
    detail := "The provider cannot create the Proxmox VE API client as there is an unknown configuration value for the API token secret." ++ unknownTail
    attrPath := some "api_token_secret" }

/-- Unknown-value diagnostic attributed to api_token_username. -/
def unknownTokenUsernameDiag : Diag :=
  { summary := "Unknown Proxmox VE API Token Username"
    detail := "The provider cannot create the Proxmox VE API client as there is an unknown configuration value for the API token username." ++ unknownTail
    attrPath := some "api_token_username" }

/-- Unknown-value diagnostic attributed to endpoint. -/
def unknownEndpointDiag : Diag :=
  { summary := "Unknown Proxmox VE Endpoint"
    detail := "The provider cannot create the Proxmox VE API client as there is an unknown configuration value for the endpoint." ++ unknownTail
    attrPath := some "endpoint" }

/-- Missing-value diagnostic attributed to api_token_id. -/
def missingTokenIDDiag : Diag :=
  { summary := "Missing Proxmox VE API Token ID"
    detail := "The provider cannot create the Proxmox VE API client as there is a missing or empty value for the API token ID." ++ unknownTail
    attrPath := some "api_token_id" }

/-- Missing-value diagnostic attributed to api_token_secret. -/
def missingTokenSecretDiag : Diag :=
  { summary := "Missing Proxmox VE API Token Secret"
    detail := "The provider cannot create the Proxmox VE API client as there is a missing or empty value for the API token secret." ++ unknownTail
    attrPath := some "api_token_secret" }

/-- Missing-value diagnostic attributed to api_token_username. -/
def missingTokenUsernameDiag : Diag :=
  { summary := "Missing Proxmox VE API Token Username"
    detail := "The provider cannot create the Proxmox VE API client as there is a missing or empty value for the API token username." ++ unknownTail
    attrPath := some "api_token_username" }

/-- Missing-value diagnostic attributed to endpoint. -/
def missingEndpointDiag : Diag :=
  { summary := "Missing Proxmox VE Endpoint"
    detail := "The provider cannot create the Proxmox VE API client as there is a missing or empty value for the endpoint." ++ unknownTail
    attrPath := some "endpoint" }

/-- Diagnostic of Configure when the remote version check fails. -/
def versionFailedDiag (err : String) : Diag :=
  { summary := "Proxmox VE API: Get Version Failed"
    detail := "Failed to get the Proxmox VE version details from the API:\n\t" ++ err
    attrPath := none }

/-- The Configure method of the provider, starting after a successful
Config.Get (so with empty response diagnostics). First the unknown-value
checks: NOTE that the third check tests config.apiTokenID AGAIN (the source
tests config.APITokenID at provider.go line 136 while attributing the error
to api_token_username); an early return follows if any fired. Then the
empty-value checks over ValueString, again with an early return. Then the
client is built and the remote version endpoint is called exactly once; on
failure one diagnostic is added and nothing is published, otherwise the
provider data handle is published for data sources and resources. The
version outcome is an input, `vc`, standing for the single remote call. -/
def configureProvider (config : ProviderModel) (vc : Except String VersionInfo) :
    ConfigureResult :=
  let ds : List Diag := []
  let ds := if config.apiTokenID.isUnknown then addDiag ds unknownTokenIDDiag else ds
  let ds := if config.apiTokenSecret.isUnknown then addDiag ds unknownTokenSecretDiag else ds
  let ds := if config.apiTokenID.isUnknown then addDiag ds unknownTokenUsernameDiag else ds
  let ds := if config.endpoint.isUnknown then addDiag ds unknownEndpointDiag else ds
  if hasError ds then
    { diags := ds, dataSourceData := none, resourceData := none, versionCalls := 0 }
  else
    let apiTokenID := config.apiTokenID.valueString
    let ds := if apiTokenID = "" then addDiag ds missingTokenIDDiag else ds
    let apiTokenSecret := config.apiTokenSecret.valueString
    let ds := if apiTokenSecret = "" then addDiag ds missingTokenSecretDiag else ds
    let apiTokenUsername := config.apiTokenUsername.valueString
    let ds := if apiTokenUsername = "" then addDiag ds missingTokenUsernameDiag else ds
    let endpoint := config.endpoint.valueString
    let ds := if endpoint = "" then addDiag ds missingEndpointDiag else ds
    if hasError ds then
      { diags := ds, dataSourceData := none, resourceData := none, versionCalls := 0 }
    else
      let client : ClientConfig :=
        { baseURL := endpoint ++ "/api2/json"
          tokenID := apiTokenUsername ++ "!" ++ apiTokenID
          tokenSecret := apiTokenSecret
          insecureSkipVerify := config.ignoreUntrustedSSLCertificate.valueBool }
      match vc with
      | .error e =>
        { diags := addDiag [] (versionFailedDiag e), dataSourceData := none
          resourceData := none, versionCalls := 1 }
      | .ok _ =>
        let pdata : ProviderData := { client := client, endpoint := endpoint }
        { diags := [], dataSourceData := some pdata, resourceData := some pdata
          versionCalls := 1 }

/-- Splitting a separator-free character list yields that list alone. -/
lemma splitChars_not_mem {sep : Char} {cs : List Char} (h : sep ∉ cs) :
    splitChars sep cs = [cs] := by
  induction cs with
  | nil => rfl
  | cons c cs ih =>
    have hc : c ≠ sep := fun hcs => h (hcs ▸ List.mem_cons_self c cs)
    have hcs : sep ∉ cs := fun hm => h (List.mem_cons_of_mem c hm)
    simp [splitChars, hc, ih hcs]

/-- Splitting at the first separator occurrence peels off the prefix. -/
lemma splitChars_append {sep : Char} {a : List Char} (b : List Char) (h : sep ∉ a) :
    splitChars sep (a ++ sep :: b) = a :: splitChars sep b := by
  induction a with
  | nil => simp [splitChars]
  | cons c a ih =>
    have hc : c ≠ sep := fun hcs => h (hcs ▸ List.mem_cons_self c a)
    have ha : sep ∉ a := fun hm => h (List.mem_cons_of_mem c hm)
    simp [splitChars, hc, ih ha]

/-- breakAtSep finds nothing in a separator-free list. -/
lemma breakAtSep_not_mem {sep : Char} {cs : List Char} (h : sep ∉ cs) :
    breakAtSep sep cs = none := by
  induction cs with
  | nil => rfl
  | cons c cs ih =>
    have hc : c ≠ sep := fun hcs => h (hcs ▸ List.mem_cons_self c cs)
    have hcs : sep ∉ cs := fun hm => h (List.mem_cons_of_mem c hm)
    simp [breakAtSep, hc, ih hcs]

/-- breakAtSep cuts exactly at the first separator occurrence. -/
lemma breakAtSep_append {sep : Char} {a : List Char} (b : List Char) (h : sep ∉ a) :
    breakAtSep sep (a ++ sep :: b) = some (a, b) := by
  induction a with
  | nil => simp [breakAtSep]
  | cons c a ih =>
    have hc : c ≠ sep := fun hcs => h (hcs ▸ List.mem_cons_self c a)
    have ha : sep ∉ a := fun hm => h (List.mem_cons_of_mem c hm)
    simp [breakAtSep, hc, ih ha]

/-- Any occurring element admits a first-occurrence decomposition. -/
lemma exists_first_occ {sep : Char} {cs : List Char} (h : sep ∈ cs) :
    ∃ a b, cs = a ++ sep :: b ∧ sep ∉ a := by
  induction cs with
  | nil => cases h
  | cons c cs ih =>
    by_cases hc : c = sep
    · exact ⟨[], cs, by rw [hc]; rfl, List.not_mem_nil sep⟩
    · have hm : sep ∈ cs := by
        rcases List.mem_cons.mp h with h1 | h1
        · exact absurd h1.symm hc
        · exact h1
      obtain ⟨a, b, hab, ha⟩ := ih hm
      refine ⟨c :: a, b, by rw [hab]; rfl, ?_⟩
      intro hmem
      rcases List.mem_cons.mp hmem with h1 | h1
      · exact hc h1.symm
      · exact ha h1

/-- On a pair with at most one equal sign, the split the source performs
(strings.Split on every equal sign) agrees with the first-equal-sign split
the specification describes. -/
lemma eqSplit_eq_firstEqSplit (p : String) (h : p.data.count '=' ≤ 1) :
    eqSplit p = firstEqSplit p := by
  by_cases hm : '=' ∈ p.data
  · obtain ⟨a, b, hab, ha⟩ := exists_first_occ hm
    have hcnt : p.data.count '=' = a.count '=' + (b.count '=' + 1) := by
      rw [hab]; simp [List.count_append, List.count_cons]
    have ha0 : a.count '=' = 0 := List.count_eq_zero.mpr ha
    have hb0 : b.count '=' = 0 := by omega
    have hb : '=' ∉ b := List.count_eq_zero.mp hb0
    unfold eqSplit firstEqSplit goSplit splitFirst
    rw [hab, splitChars_append b ha, splitChars_not_mem hb, breakAtSep_append b ha]
    rfl
  · unfold eqSplit firstEqSplit goSplit splitFirst
    rw [splitChars_not_mem hm, breakAtSep_not_mem hm]
    rfl

/-- Two pair-splitting functions agreeing on every pair of the list give the
same parse. -/
lemma processPairsWith_congr (s1 s2 : String → List String) :
    ∀ (ps : List String) (i : NetworkInterfaceModel) (ds : List Diag),
    (∀ p ∈ ps, s1 p = s2 p) →
    processPairsWith s1 ps i ds = processPairsWith s2 ps i ds := by
  intro ps
  induction ps with
  | nil => intro i ds _; rfl
  | cons p ps ih =>
    intro i ds h
    have hp : s1 p = s2 p := h p (List.mem_cons_self p ps)
    have hrest : ∀ q ∈ ps, s1 q = s2 q := fun q hq => h q (List.mem_cons_of_mem p hq)
    simp only [processPairsWith, processPairWith, hp]
    cases s2 p with
    | nil => rfl
    | cons k t =>
      cases t with
      | nil => rfl
      | cons v r => exact ih _ _ hrest

/-- Whether one key/value pair would set the model field. -/
def setsModel (k : String) (_ : String) : Bool := k == "model"

/-- Whether one key/value pair would set the bridge field. -/
def setsBridge (k : String) (_ : String) : Bool := k == "bridge"

/-- Whether one key/value pair would set the firewall field: right key and a
value strconv.ParseBool accepts. -/
def setsFirewall (k v : String) : Bool := k == "firewall" && isOk (goParseBool v)

/-- Whether one key/value pair would set the link-down field. -/
def setsLinkDown (k v : String) : Bool := k == "link_down" && isOk (goParseBool v)

/-- Whether one key/value pair would set the hardware-address field (two
alias keys, both taken verbatim). -/
def setsHWAddr (k : String) (_ : String) : Bool := k == "macaddr" || k == "virtio"

/-- Whether one key/value pair would set the MTU field: right key and a
value strconv.ParseInt accepts for a 32-bit integer. -/
def setsMTU (k v : String) : Bool := k == "mtu" && isOk (goParseInt32 v)

/-- Whether one key/value pair would set the queues field. -/
def setsQueues (k v : String) : Bool := k == "queues" && isOk (goParseInt32 v)

/-- Whether one key/value pair would set the rate field. -/
def setsRate (k v : String) : Bool := k == "rate" && isOk (goParseInt32 v)

/-- Whether one key/value pair would set the tag field. -/
def setsTag (k v : String) : Bool := k == "tag" && isOk (goParseInt32 v)

/-- Whether one key/value pair would set the trunks field: the trunks key
populates the (possibly empty) list no matter how its elements parse. -/
def setsTrunks (k : String) (_ : String) : Bool := k == "trunks"


/-- One switch step keeps the raw-config field untouched. -/
lemma applyKey_rawConfig (i : NetworkInterfaceModel) (ds : List Diag) (k v : String) :
    (applyKey i ds k v).1.rawConfig = i.rawConfig := by
  unfold applyKey
  by_cases h1 : k = "model"
  · subst h1; simp
  by_cases h2 : k = "bridge"
  · subst h2; simp
  by_cases h3 : k = "firewall"
  · subst h3; cases hb : goParseBool v <;> simp [hb, isOk]
  by_cases h4 : k = "link_down"
  · subst h4; cases hb : goParseBool v <;> simp [hb, isOk]
  by_cases h5 : k = "macaddr" ∨ k = "virtio"
  · rcases h5 with h5 | h5 <;> (subst h5; simp [h1, h2, h3, h4])
  by_cases h6 : k = "mtu"
  · subst h6; cases hn : goParseInt32 v <;> simp [hn, isOk]
  by_cases h7 : k = "queues"
  · subst h7; cases hn : goParseInt32 v <;> simp [hn, isOk]
  by_cases h8 : k = "rate"
  · subst h8; cases hn : goParseInt32 v <;> simp [hn, isOk]
  by_cases h9 : k = "tag"
  · subst h9; cases hn : goParseInt32 v <;> simp [hn, isOk]
  by_cases h10 : k = "trunks"
  · subst h10; simp
  simp [h1, h2, h3, h4, h5, h6, h7, h8, h9, h10]


/-- One switch step populates the model field exactly when setsModel holds. -/
lemma applyKey_model (i : NetworkInterfaceModel) (ds : List Diag) (k v : String) :
    ((applyKey i ds k v).1.model ≠ none) ↔ (i.model ≠ none ∨ setsModel k v = true) := by
  unfold applyKey setsModel
  by_cases h1 : k = "model"
  · subst h1; simp
  by_cases h2 : k = "bridge"
  · subst h2; simp
  by_cases h3 : k = "firewall"
  · subst h3; cases hb : goParseBool v <;> simp [hb, isOk]
  by_cases h4 : k = "link_down"
  · subst h4; cases hb : goParseBool v <;> simp [hb, isOk]
  by_cases h5 : k = "macaddr" ∨ k = "virtio"
  · rcases h5 with h5 | h5 <;> (subst h5; simp [h1, h2, h3, h4])
  by_cases h6 : k = "mtu"
  · subst h6; cases hn : goParseInt32 v <;> simp [hn, isOk]
  by_cases h7 : k = "queues"
  · subst h7; cases hn : goParseInt32 v <;> simp [hn, isOk]
  by_cases h8 : k = "rate"
  · subst h8; cases hn : goParseInt32 v <;> simp [hn, isOk]
  by_cases h9 : k = "tag"
  · subst h9; cases hn : goParseInt32 v <;> simp [hn, isOk]
  by_cases h10 : k = "trunks"
  · subst h10; simp
  simp [h1, h2, h3, h4, h5, h6, h7, h8, h9, h10]


/-- One switch step populates the bridge field exactly when setsBridge holds. -/
lemma applyKey_bridge (i : NetworkInterfaceModel) (ds : List Diag) (k v : String) :
    ((applyKey i ds k v).1.bridge ≠ none) ↔ (i.bridge ≠ none ∨ setsBridge k v = true) := by
  unfold applyKey setsBridge
  by_cases h1 : k = "model"
  · subst h1; simp
  by_cases h2 : k = "bridge"
  · subst h2; simp
  by_cases h3 : k = "firewall"
  · subst h3; cases hb : goParseBool v <;> simp [hb, isOk]
  by_cases h4 : k = "link_down"
  · subst h4; cases hb : goParseBool v <;> simp [hb, isOk]
  by_cases h5 : k = "macaddr" ∨ k = "virtio"
  · rcases h5 with h5 | h5 <;> (subst h5; simp [h1, h2, h3, h4])
  by_cases h6 : k = "mtu"
  · subst h6; cases hn : goParseInt32 v <;> simp [hn, isOk]
  by_cases h7 : k = "queues"
  · subst h7; cases hn : goParseInt32 v <;> simp [hn, isOk]
  by_cases h8 : k = "rate"
  · subst h8; cases hn : goParseInt32 v <;> simp [hn, isOk]
  by_cases h9 : k = "tag"
  · subst h9; cases hn : goParseInt32 v <;> simp [hn, isOk]
  by_cases h10 : k = "trunks"
  · subst h10; simp
  simp [h1, h2, h3, h4, h5, h6, h7, h8, h9, h10]


/-- One switch step populates the firewall field exactly when setsFirewall holds. -/
lemma applyKey_firewall (i : NetworkInterfaceModel) (ds : List Diag) (k v : String) :
    ((applyKey i ds k v).1.firewall ≠ none) ↔ (i.firewall ≠ none ∨ setsFirewall k v = true) := by
  unfold applyKey setsFirewall
  by_cases h1 : k = "model"
  · subst h1; simp
  by_cases h2 : k = "bridge"
  · subst h2; simp
  by_cases h3 : k = "firewall"
  · subst h3; cases hb : goParseBool v <;> simp [hb, isOk]
  by_cases h4 : k = "link_down"
  · subst h4; cases hb : goParseBool v <;> simp [hb, isOk]
  by_cases h5 : k = "macaddr" ∨ k = "virtio"
  · rcases h5 with h5 | h5 <;> (subst h5; simp [h1, h2, h3, h4])
  by_cases h6 : k = "mtu"
  · subst h6; cases hn : goParseInt32 v <;> simp [hn, isOk]
  by_cases h7 : k = "queues"
  · subst h7; cases hn : goParseInt32 v <;> simp [hn, isOk]
  by_cases h8 : k = "rate"
  · subst h8; cases hn : goParseInt32 v <;> simp [hn, isOk]
  by_cases h9 : k = "tag"
  · subst h9; cases hn : goParseInt32 v <;> simp [hn, isOk]
  by_cases h10 : k = "trunks"
  · subst h10; simp
  simp [h1, h2, h3, h4, h5, h6, h7, h8, h9, h10]


/-- One switch step populates the link-down field exactly when setsLinkDown holds. -/
lemma applyKey_linkDown (i : NetworkInterfaceModel) (ds : List Diag) (k v : String) :
    ((applyKey i ds k v).1.linkDown ≠ none) ↔ (i.linkDown ≠ none ∨ setsLinkDown k v = true) := by
  unfold applyKey setsLinkDown
  by_cases h1 : k = "model"
  · subst h1; simp
  by_cases h2 : k = "bridge"
  · subst h2; simp
  by_cases h3 : k = "firewall"
  · subst h3; cases hb : goParseBool v <;> simp [hb, isOk]
  by_cases h4 : k = "link_down"
  · subst h4; cases hb : goParseBool v <;> simp [hb, isOk]
  by_cases h5 : k = "macaddr" ∨ k = "virtio"
  · rcases h5 with h5 | h5 <;> (subst h5; simp [h1, h2, h3, h4])
  by_cases h6 : k = "mtu"
  · subst h6; cases hn : goParseInt32 v <;> simp [hn, isOk]
  by_cases h7 : k = "queues"
  · subst h7; cases hn : goParseInt32 v <;> simp [hn, isOk]
  by_cases h8 : k = "rate"
  · subst h8; cases hn : goParseInt32 v <;> simp [hn, isOk]
  by_cases h9 : k = "tag"
  · subst h9; cases hn : goParseInt32 v <;> simp [hn, isOk]
  by_cases h10 : k = "trunks"
  · subst h10; simp
  simp [h1, h2, h3, h4, h5, h6, h7, h8, h9, h10]


/-- One switch step populates the hardware-address field exactly when setsHWAddr holds. -/
lemma applyKey_hardwareAddress (i : NetworkInterfaceModel) (ds : List Diag) (k v : String) :
    ((applyKey i ds k v).1.hardwareAddress ≠ none) ↔ (i.hardwareAddress ≠ none ∨ setsHWAddr k v = true) := by
  unfold applyKey setsHWAddr
  by_cases h1 : k = "model"
  · subst h1; simp
  by_cases h2 : k = "bridge"
  · subst h2; simp
  by_cases h3 : k = "firewall"
  · subst h3; cases hb : goParseBool v <;> simp [hb, isOk]
  by_cases h4 : k = "link_down"
  · subst h4; cases hb : goParseBool v <;> simp [hb, isOk]
  by_cases h5 : k = "macaddr" ∨ k = "virtio"
  · rcases h5 with h5 | h5 <;> (subst h5; simp [h1, h2, h3, h4])
  by_cases h6 : k = "mtu"
  · subst h6; cases hn : goParseInt32 v <;> simp [hn, isOk]
  by_cases h7 : k = "queues"
  · subst h7; cases hn : goParseInt32 v <;> simp [hn, isOk]
  by_cases h8 : k = "rate"
  · subst h8; cases hn : goParseInt32 v <;> simp [hn, isOk]
  by_cases h9 : k = "tag"
  · subst h9; cases hn : goParseInt32 v <;> simp [hn, isOk]
  by_cases h10 : k = "trunks"
  · subst h10; simp
  simp [h1, h2, h3, h4, h5, h6, h7, h8, h9, h10]


/-- One switch step populates the MTU field exactly when setsMTU holds. -/
lemma applyKey_mtu (i : NetworkInterfaceModel) (ds : List Diag) (k v : String) :
    ((applyKey i ds k v).1.mtu ≠ none) ↔ (i.mtu ≠ none ∨ setsMTU k v = true) := by
  unfold applyKey setsMTU
  by_cases h1 : k = "model"
  · subst h1; simp
  by_cases h2 : k = "bridge"
  · subst h2; simp
  by_cases h3 : k = "firewall"
  · subst h3; cases hb : goParseBool v <;> simp [hb, isOk]
  by_cases h4 : k = "link_down"
  · subst h4; cases hb : goParseBool v <;> simp [hb, isOk]
  by_cases h5 : k = "macaddr" ∨ k = "virtio"
  · rcases h5 with h5 | h5 <;> (subst h5; simp [h1, h2, h3, h4])
  by_cases h6 : k = "mtu"
  · subst h6; cases hn : goParseInt32 v <;> simp [hn, isOk]
  by_cases h7 : k = "queues"
  · subst h7; cases hn : goParseInt32 v <;> simp [hn, isOk]
  by_cases h8 : k = "rate"
  · subst h8; cases hn : goParseInt32 v <;> simp [hn, isOk]
  by_cases h9 : k = "tag"
  · subst h9; cases hn : goParseInt32 v <;> simp [hn, isOk]
  by_cases h10 : k = "trunks"
  · subst h10; simp
  simp [h1, h2, h3, h4, h5, h6, h7, h8, h9, h10]


/-- One switch step populates the queues field exactly when setsQueues holds. -/
lemma applyKey_queues (i : NetworkInterfaceModel) (ds : List Diag) (k v : String) :
    ((applyKey i ds k v).1.queues ≠ none) ↔ (i.queues ≠ none ∨ setsQueues k v = true) := by
  unfold applyKey setsQueues
  by_cases h1 : k = "model"
  · subst h1; simp
  by_cases h2 : k = "bridge"
  · subst h2; simp
  by_cases h3 : k = "firewall"
  · subst h3; cases hb : goParseBool v <;> simp [hb, isOk]
  by_cases h4 : k = "link_down"
  · subst h4; cases hb : goParseBool v <;> simp [hb, isOk]
  by_cases h5 : k = "macaddr" ∨ k = "virtio"
  · rcases h5 with h5 | h5 <;> (subst h5; simp [h1, h2, h3, h4])
  by_cases h6 : k = "mtu"
  · subst h6; cases hn : goParseInt32 v <;> simp [hn, isOk]
  by_cases h7 : k = "queues"
  · subst h7; cases hn : goParseInt32 v <;> simp [hn, isOk]
  by_cases h8 : k = "rate"
  · subst h8; cases hn : goParseInt32 v <;> simp [hn, isOk]
  by_cases h9 : k = "tag"
  · subst h9; cases hn : goParseInt32 v <;> simp [hn, isOk]
  by_cases h10 : k = "trunks"
  · subst h10; simp
  simp [h1, h2, h3, h4, h5, h6, h7, h8, h9, h10]


/-- One switch step populates the rate field exactly when setsRate holds. -/
lemma applyKey_rate (i : NetworkInterfaceModel) (ds : List Diag) (k v : String) :
    ((applyKey i ds k v).1.rate ≠ none) ↔ (i.rate ≠ none ∨ setsRate k v = true) := by
  unfold applyKey setsRate
  by_cases h1 : k = "model"
  · subst h1; simp
  by_cases h2 : k = "bridge"
  · subst h2; simp
  by_cases h3 : k = "firewall"
  · subst h3; cases hb : goParseBool v <;> simp [hb, isOk]
  by_cases h4 : k = "link_down"
  · subst h4; cases hb : goParseBool v <;> simp [hb, isOk]
  by_cases h5 : k = "macaddr" ∨ k = "virtio"
  · rcases h5 with h5 | h5 <;> (subst h5; simp [h1, h2, h3, h4])
  by_cases h6 : k = "mtu"
  · subst h6; cases hn : goParseInt32 v <;> simp [hn, isOk]
  by_cases h7 : k = "queues"
  · subst h7; cases hn : goParseInt32 v <;> simp [hn, isOk]
  by_cases h8 : k = "rate"
  · subst h8; cases hn : goParseInt32 v <;> simp [hn, isOk]
  by_cases h9 : k = "tag"
  · subst h9; cases hn : goParseInt32 v <;> simp [hn, isOk]
  by_cases h10 : k = "trunks"
  · subst h10; simp
  simp [h1, h2, h3, h4, h5, h6, h7, h8, h9, h10]


/-- One switch step populates the tag field exactly when setsTag holds. -/
lemma applyKey_tag (i : NetworkInterfaceModel) (ds : List Diag) (k v : String) :
    ((applyKey i ds k v).1.tag ≠ none) ↔ (i.tag ≠ none ∨ setsTag k v = true) := by
  unfold applyKey setsTag
  by_cases h1 : k = "model"
  · subst h1; simp
  by_cases h2 : k = "bridge"
  · subst h2; simp
  by_cases h3 : k = "firewall"
  · subst h3; cases hb : goParseBool v <;> simp [hb, isOk]
  by_cases h4 : k = "link_down"
  · subst h4; cases hb : goParseBool v <;> simp [hb, isOk]
  by_cases h5 : k = "macaddr" ∨ k = "virtio"
  · rcases h5 with h5 | h5 <;> (subst h5; simp [h1, h2, h3, h4])
  by_cases h6 : k = "mtu"
  · subst h6; cases hn : goParseInt32 v <;> simp [hn, isOk]
  by_cases h7 : k = "queues"
  · subst h7; cases hn : goParseInt32 v <;> simp [hn, isOk]
  by_cases h8 : k = "rate"
  · subst h8; cases hn : goParseInt32 v <;> simp [hn, isOk]
  by_cases h9 : k = "tag"
  · subst h9; cases hn : goParseInt32 v <;> simp [hn, isOk]
  by_cases h10 : k = "trunks"
  · subst h10; simp
  simp [h1, h2, h3, h4, h5, h6, h7, h8, h9, h10]


/-- One switch step populates the trunks field exactly when setsTrunks holds. -/
lemma applyKey_trunks (i : NetworkInterfaceModel) (ds : List Diag) (k v : String) :
    ((applyKey i ds k v).1.trunks ≠ none) ↔ (i.trunks ≠ none ∨ setsTrunks k v = true) := by
  unfold applyKey setsTrunks
  by_cases h1 : k = "model"
  · subst h1; simp
  by_cases h2 : k = "bridge"
  · subst h2; simp
  by_cases h3 : k = "firewall"
  · subst h3; cases hb : goParseBool v <;> simp [hb, isOk]
  by_cases h4 : k = "link_down"
  · subst h4; cases hb : goParseBool v <;> simp [hb, isOk]
  by_cases h5 : k = "macaddr" ∨ k = "virtio"
  · rcases h5 with h5 | h5 <;> (subst h5; simp [h1, h2, h3, h4])
  by_cases h6 : k = "mtu"
  · subst h6; cases hn : goParseInt32 v <;> simp [hn, isOk]
  by_cases h7 : k = "queues"
  · subst h7; cases hn : goParseInt32 v <;> simp [hn, isOk]
  by_cases h8 : k = "rate"
  · subst h8; cases hn : goParseInt32 v <;> simp [hn, isOk]
  by_cases h9 : k = "tag"
  · subst h9; cases hn : goParseInt32 v <;> simp [hn, isOk]
  by_cases h10 : k = "trunks"
  · subst h10; simp
  simp [h1, h2, h3, h4, h5, h6, h7, h8, h9, h10]

/-- Whether one comma-separated pair, split as the source splits it, would
set the field whose per-pair predicate is `f`. A pair the source would
panic on sets nothing. -/
def pairSets (f : String → String → Bool) (p : String) : Bool :=
  match eqSplit p with
  | k :: v :: _ => f k v
  | _ => false

/-- Fold lemma: over any run of the pair loop that completes without a
panic, a field is populated exactly when it was populated at entry or some
pair of the list sets it. -/
lemma processPairs_field {α : Type} (sel : NetworkInterfaceModel → Option α)
    (f : String → String → Bool)
    (H : ∀ i ds k v, ((applyKey i ds k v).1 |> sel) ≠ none ↔ (sel i ≠ none ∨ f k v = true)) :
    ∀ (ps : List String) (i : NetworkInterfaceModel) (ds : List Diag)
      (r : NetworkInterfaceModel × List Diag),
    processPairsWith eqSplit ps i ds = some r →
    (sel r.1 ≠ none ↔ (sel i ≠ none ∨ ∃ p ∈ ps, pairSets f p = true)) := by
  intro ps
  induction ps with
  | nil =>
    intro i ds r h
    simp only [processPairsWith, Option.some_inj] at h
    subst h
    simp
  | cons p ps ih =>
    intro i ds r h
    simp only [processPairsWith, processPairWith] at h
    cases he : eqSplit p with
    | nil => rw [he] at h; cases h
    | cons k t =>
      cases t with
      | nil => rw [he] at h; cases h
      | cons v rest =>
        rw [he] at h
        simp only at h
        have hstep := ih (applyKey i ds k v).1 (applyKey i ds k v).2 r h
        rw [hstep, H i ds k v]
        simp only [pairSets, he, List.mem_cons]
        constructor
        · rintro ((hi | hf) | ⟨q, hq, hqs⟩)
          · exact Or.inl hi
          · exact Or.inr ⟨p, Or.inl rfl, by simp [pairSets, he, hf]⟩
          · exact Or.inr ⟨q, Or.inr hq, hqs⟩
        · rintro (hi | ⟨q, hq | hq, hqs⟩)
          · exact Or.inl (Or.inl hi)
          · subst hq
            simp only [pairSets, he] at hqs
            exact Or.inl (Or.inr hqs)
          · exact Or.inr ⟨q, hq, hqs⟩

/-- Fold lemma: the pair loop never touches the raw-config field. -/
lemma processPairs_rawConfig :
    ∀ (ps : List String) (i : NetworkInterfaceModel) (ds : List Diag)
      (r : NetworkInterfaceModel × List Diag),
    processPairsWith eqSplit ps i ds = some r → r.1.rawConfig = i.rawConfig := by
  intro ps
  induction ps with
  | nil =>
    intro i ds r h
    simp only [processPairsWith, Option.some_inj] at h
    subst h
    rfl
  | cons p ps ih =>
    intro i ds r h
    simp only [processPairsWith, processPairWith] at h
    cases he : eqSplit p with
    | nil => rw [he] at h; cases h
    | cons k t =>
      cases t with
      | nil => rw [he] at h; cases h
      | cons v rest =>
        rw [he] at h
        simp only at h
        exact (ih _ _ r h).trans (applyKey_rawConfig i ds k v)

/-- Every comma-separated pair of the line holds at most one equal sign. -/
def pairsAtMostOneEq (config : String) : Prop :=
  ∀ p ∈ goSplit config ',', p.data.count '=' ≤ 1

instance pairsAtMostOneEqDec (config : String) : Decidable (pairsAtMostOneEq config) :=
  inferInstanceAs (Decidable (∀ p ∈ goSplit config ',', p.data.count '=' ≤ 1))

/-- Per-field population record of one parsed line: each optional scalar
field is populated exactly when some pair of the line has its key with a
successfully coercing value (string-typed keys always coerce), and the
trunks field is populated exactly when some pair has the trunks key at all,
whether or not any of its elements parse. -/
def fieldsCharacterized (config : String) (iface : NetworkInterfaceModel) : Prop :=
  (iface.model ≠ none ↔ ∃ p ∈ goSplit config ',', pairSets setsModel p = true) ∧
  (iface.bridge ≠ none ↔ ∃ p ∈ goSplit config ',', pairSets setsBridge p = true) ∧
  (iface.firewall ≠ none ↔ ∃ p ∈ goSplit config ',', pairSets setsFirewall p = true) ∧
  (iface.linkDown ≠ none ↔ ∃ p ∈ goSplit config ',', pairSets setsLinkDown p = true) ∧
  (iface.hardwareAddress ≠ none ↔ ∃ p ∈ goSplit config ',', pairSets setsHWAddr p = true) ∧
  (iface.mtu ≠ none ↔ ∃ p ∈ goSplit config ',', pairSets setsMTU p = true) ∧
  (iface.queues ≠ none ↔ ∃ p ∈ goSplit config ',', pairSets setsQueues p = true) ∧
  (iface.rate ≠ none ↔ ∃ p ∈ goSplit config ',', pairSets setsRate p = true) ∧
  (iface.tag ≠ none ↔ ∃ p ∈ goSplit config ',', pairSets setsTag p = true) ∧
  (iface.trunks ≠ none ↔ ∃ p ∈ goSplit config ',', pairSets setsTrunks p = true)

/-- C3 counterexample: the claim says each pair is split on the FIRST equal
sign only, the value keeping the remaining text. On the pair tag=1=2 the
source instead splits on every equal sign and binds the value to the text
between the first and second equal sign: the source parse sets tag to 1
with no diagnostic, while the first-equal-sign parse described by the claim
would reject the value 1=2 and leave tag unset. -/
theorem c3_counterexample :
    parseNetworkConfig "tag=1=2" [] ≠ parseNetworkConfigSpec "tag=1=2" [] ∧
    (parseNetworkConfig "tag=1=2" []).map (fun r => r.1.tag) = some (some 1) ∧
    (parseNetworkConfigSpec "tag=1=2" []).map (fun r => r.1.tag) = some none := by
  decide

/-- C3 amended: the source splits each pair on EVERY equal sign, binding the
key to the text before the first one and the value to the text between the
first and the second one (any later text is discarded); on lines whose
pairs each hold at most one equal sign this coincides with the
first-equal-sign split the claim describes. -/
theorem c3_amended (config : String) (ds : List Diag) (h : pairsAtMostOneEq config) :
    parseNetworkConfig config ds = parseNetworkConfigSpec config ds := by
  unfold parseNetworkConfig parseNetworkConfigSpec parseNetworkConfigWith
  exact processPairsWith_congr eqSplit firstEqSplit (goSplit config ',')
    { rawConfig := some config } ds (fun p hp => eqSplit_eq_firstEqSplit p (h p hp))

/-- C3 amended witness at a concrete line with one equal sign per pair. -/
theorem c3_amended_witness :
    pairsAtMostOneEq "tag=100,model=virtio" ∧
    parseNetworkConfig "tag=100,model=virtio" [] =
      parseNetworkConfigSpec "tag=100,model=virtio" [] :=
  ⟨by decide, c3_amended "tag=100,model=virtio" [] (by decide)⟩

/-- C4: a comma-separated pair without an equal sign makes the parse reach
the out-of-bounds access to the value component (the panic branch of the
embedded indexing, `none`), producing no reported diagnostic. -/
theorem c4_missing_eq_panics :
    parseNetworkConfig "model=virtio,bogus" [] = none := by
  decide

/-- C5 counterexample: on the line trunks=x the trunks key is present but
its only element fails to parse; the claim says the trunks field is then
left unset, yet the source populates it with the empty list (the field is
assigned before the element loop runs). -/
theorem c5_counterexample :
    (parseNetworkConfig "trunks=x" []).map (fun r => r.1.trunks) = some (some []) ∧
    (parseNetworkConfig "trunks=x" []).map (fun r => r.2) =
      some [netDiag "trunks" (parseIntSyntaxErr "x")] := by
  decide

/-- C5 amended: over any line the parse completes on, each optional scalar
field of the result is populated exactly when the line has a pair with that
key and a successfully coercing value — so a failed coercion leaves exactly
that field unset and no other field is affected — while the trunks field is
populated exactly when some pair has the trunks key, regardless of how its
elements parse. -/
theorem c5_amended (config : String) (ds : List Diag)
    (r : NetworkInterfaceModel × List Diag)
    (h : parseNetworkConfig config ds = some r) :
    fieldsCharacterized config r.1 := by
  unfold parseNetworkConfig parseNetworkConfigWith at h
  refine ⟨?_, ?_, ?_, ?_, ?_, ?_, ?_, ?_, ?_, ?_⟩
  · simpa using processPairs_field (fun i => i.model) setsModel applyKey_model _ _ _ r h
  · simpa using processPairs_field (fun i => i.bridge) setsBridge applyKey_bridge _ _ _ r h
  · simpa using processPairs_field (fun i => i.firewall) setsFirewall applyKey_firewall _ _ _ r h
  · simpa using processPairs_field (fun i => i.linkDown) setsLinkDown applyKey_linkDown _ _ _ r h
  · simpa using
      processPairs_field (fun i => i.hardwareAddress) setsHWAddr applyKey_hardwareAddress _ _ _ r h
  · simpa using processPairs_field (fun i => i.mtu) setsMTU applyKey_mtu _ _ _ r h
  · simpa using processPairs_field (fun i => i.queues) setsQueues applyKey_queues _ _ _ r h
  · simpa using processPairs_field (fun i => i.rate) setsRate applyKey_rate _ _ _ r h
  · simpa using processPairs_field (fun i => i.tag) setsTag applyKey_tag _ _ _ r h
  · simpa using processPairs_field (fun i => i.trunks) setsTrunks applyKey_trunks _ _ _ r h

/-- The parse outcome of the line used as the C5 amended witness. -/
def c5Res : NetworkInterfaceModel × List Diag :=
  ({ firewall := some true, rawConfig := some "firewall=1,mtu=x" },
    [netDiag "mtu" (parseIntSyntaxErr "x")])

/-- C5 amended witness: on firewall=1,mtu=x the firewall field is populated,
the MTU field is left unset with its diagnostic, and the population record
holds. -/
theorem c5_amended_witness :
    parseNetworkConfig "firewall=1,mtu=x" [] = some c5Res ∧
    fieldsCharacterized "firewall=1,mtu=x" c5Res.1 :=
  ⟨by decide, c5_amended "firewall=1,mtu=x" [] c5Res (by decide)⟩

/-- C6: trunks=10;20;30 parses to the ordered sequence [10, 20, 30] with no
diagnostic; trunks=10;x;30 parses to [10, 30] with exactly one diagnostic
for the failing middle element — each element is parsed independently and a
failing element does not abort the remaining elements. -/
theorem c6_trunks_examples :
    parseNetworkConfig "trunks=10;20;30" [] =
      some ({ rawConfig := some "trunks=10;20;30", trunks := some [10, 20, 30] }, []) ∧
    parseNetworkConfig "trunks=10;x;30" [] =
      some ({ rawConfig := some "trunks=10;x;30", trunks := some [10, 30] },
        [netDiag "trunks" (parseIntSyntaxErr "x")]) := by
  decide

/-- C9: whatever the parse outcome of each key, any non-empty line the parse
completes on yields an interface whose raw-config field is the input line
verbatim. -/
theorem c9_raw_config_verbatim (config : String) (ds : List Diag)
    (r : NetworkInterfaceModel × List Diag) (_hne : config ≠ "")
    (h : parseNetworkConfig config ds = some r) :
    r.1.rawConfig = some config := by
  unfold parseNetworkConfig parseNetworkConfigWith at h
  exact processPairs_rawConfig _ _ _ r h

/-- The parse outcome of the line used as the C9 witness. -/
def c9Res : NetworkInterfaceModel × List Diag :=
  ({ rawConfig := some "firewall=bogus" },
    [netDiag "firewall" (parseBoolSyntaxErr "bogus")])

/-- C9 witness: a line whose only value fails coercion still keeps the raw
line verbatim. -/
theorem c9_raw_config_verbatim_witness :
    ("firewall=bogus" ≠ "") ∧ parseNetworkConfig "firewall=bogus" [] = some c9Res ∧
    c9Res.1.rawConfig = some "firewall=bogus" :=
  ⟨by decide, by decide,
    c9_raw_config_verbatim "firewall=bogus" [] c9Res (by decide) (by decide)⟩

/-- Version metadata used by the concrete Configure scenarios. -/
def vOK : VersionInfo :=
  { release := "8", version := "8.2.4", repoID := "abc123" }

/-- C2 failing input: the API token ID is unknown, the API token secret is
known but empty, the username and endpoint are fine. -/
def cfgC2 : ProviderModel :=
  { apiTokenID := .unknown
    apiTokenSecret := .value ""
    apiTokenUsername := .value "user@pam"
    endpoint := .value "https://pve:8006"
    ignoreUntrustedSSLCertificate := .null }

/-- C2: the claim says Configure reports one distinct error per missing or
unknown required field and collects them all before returning. On `cfgC2`
the source instead (a) adds an error attributed to api_token_username even
though the username is known — the third unknown-value check tests
config.APITokenID again (provider.go line 136) — and (b) returns before the
empty-value checks run, so the empty api_token_secret gets no error at
all. -/
theorem c2_field_errors_wrong :
    configureProvider cfgC2 (Except.ok vOK) =
      { diags := [unknownTokenIDDiag, unknownTokenUsernameDiag]
        dataSourceData := none, resourceData := none, versionCalls := 0 } := by
  decide

/-- C8: with every required field known and non-empty, Configure succeeds —
publishes the provider data handle with an empty diagnostic list — exactly
when the single remote version check succeeds; on a version-check failure
exactly one descriptive error is reported and nothing is published; in
every case the version endpoint is called exactly once, with no retry. -/
theorem c8_version_gate (config : ProviderModel) (vc : Except String VersionInfo)
    (hIDu : config.apiTokenID.isUnknown = false)
    (hSu : config.apiTokenSecret.isUnknown = false)
    (_hUu : config.apiTokenUsername.isUnknown = false)
    (hEu : config.endpoint.isUnknown = false)
    (hID : config.apiTokenID.valueString ≠ "")
    (hS : config.apiTokenSecret.valueString ≠ "")
    (hU : config.apiTokenUsername.valueString ≠ "")
    (hE : config.endpoint.valueString ≠ "") :
    (((configureProvider config vc).dataSourceData ≠ none ∧
        (configureProvider config vc).diags = []) ↔ isOk vc = true) ∧
    (∀ e, vc = Except.error e →
      (configureProvider config vc).diags = [versionFailedDiag e] ∧
      (configureProvider config vc).dataSourceData = none ∧
      (configureProvider config vc).resourceData = none) ∧
    (configureProvider config vc).versionCalls = 1 := by
  cases vc with
  | error e =>
    simp [configureProvider, hIDu, hSu, hEu, hID, hS, hU, hE, hasError, addDiag, isOk]
  | ok ver =>
    simp [configureProvider, hIDu, hSu, hEu, hID, hS, hU, hE, hasError, addDiag, isOk]

/-- A fully valid provider configuration for the C8 witness. -/
def cfgC8 : ProviderModel :=
  { apiTokenID := .value "tid"
    apiTokenSecret := .value "sec"
    apiTokenUsername := .value "user@pam"
    endpoint := .value "https://pve:8006"
    ignoreUntrustedSSLCertificate := .value true }

/-- C8 witness: the valid configuration against a failing version check —
one descriptive error, nothing published, one version call. -/
theorem c8_version_gate_witness :
    cfgC8.apiTokenID.isUnknown = false ∧
    cfgC8.apiTokenSecret.isUnknown = false ∧
    cfgC8.apiTokenUsername.isUnknown = false ∧
    cfgC8.endpoint.isUnknown = false ∧
    cfgC8.apiTokenID.valueString ≠ "" ∧
    cfgC8.apiTokenSecret.valueString ≠ "" ∧
    cfgC8.apiTokenUsername.valueString ≠ "" ∧
    cfgC8.endpoint.valueString ≠ "" ∧
    ((configureProvider cfgC8 (Except.error "boom")).diags = [versionFailedDiag "boom"] ∧
      (configureProvider cfgC8 (Except.error "boom")).dataSourceData = none ∧
      (configureProvider cfgC8 (Except.error "boom")).resourceData = none) ∧
    (configureProvider cfgC8 (Except.error "boom")).versionCalls = 1 :=
  ⟨by decide, by decide, by decide, by decide, by decide, by decide, by decide, by decide,
    (c8_version_gate cfgC8 (Except.error "boom") (by decide) (by decide) (by decide)
        (by decide) (by decide) (by decide) (by decide) (by decide)).2.1 "boom" rfl,
    (c8_version_gate cfgC8 (Except.error "boom") (by decide) (by decide) (by decide)
        (by decide) (by decide) (by decide) (by decide) (by decide)).2.2⟩

/-- The VM record of the C1 scenario: one interface line whose firewall
value fails boolean coercion and whose MTU parses fine. -/
def vmC1 : VMRecord :=
  { name := "test", node := "pve1", status := "running", vmid := 999
    vmConfig := some [("net0", "firewall=bogus,mtu=1500")] }

/-- A remote API resolving every lookup to the C1 record. -/
def apiC1 : Api :=
  { node := fun _ => Except.ok (), vm := fun _ _ => Except.ok vmC1 }

/-- The filter of the C1 scenario. -/
def fltC1 : FilterModel :=
  { nodeName := TFValue.value "pve1", vmID := TFValue.value 100 }

/-- C1 failing input: the claim says a failed coercion adds exactly one
diagnostic naming the key to the CALLER-VISIBLE diagnostics. The
diagnostic does exist in the local diagnostic list inside
parseNetworkConfig (second conjunct), but Read passes its response
diagnostics to parseNetworkConfig by value, so the response the caller
sees carries NO diagnostic at all (first conjunct, diags = []) and Read
even proceeds to set state. The within-line behavior the claim also
states — firewall left unset, mtu still parsed — does hold. -/
theorem c1_diagnostics_lost :
    readVMConfig { data := none, filter := some fltC1 } apiC1 =
      some { diags := []
             state := some
               { data := some
                   { name := TFValue.value "test"
                     node := TFValue.value "pve1"
                     networkInterfaces :=
                       [{ mtu := some 1500, rawConfig := some "firewall=bogus,mtu=1500" }]
                     status := TFValue.value "running"
                     vmID := TFValue.value 100 }
                 filter := some fltC1 }
             apiCalls := [ApiCall.nodeLookup "pve1", ApiCall.vmLookup "pve1" 100] } ∧
    (parseNetworkConfig "firewall=bogus,mtu=1500" []).map Prod.snd =
      some [netDiag "firewall" (parseBoolSyntaxErr "bogus")] := by
  decide

/-- C7: the precondition checks of Read run in the order filter presence,
node name, VM identifier, each returning early with its single distinct
error and an empty remote-call trace — in particular a missing node name
yields its reported error and no remote API call. -/
theorem c7_precondition_order (d : Option DataModel) (api : Api) :
    (readVMConfig { data := d, filter := none } api =
      some { diags := [filterRequiredDiag], state := none, apiCalls := [] }) ∧
    (∀ flt : FilterModel, (flt.nodeName.isNull || flt.nodeName.isUnknown) = true →
      readVMConfig { data := d, filter := some flt } api =
        some { diags := [nodeNameRequiredDiag], state := none, apiCalls := [] }) ∧
    (∀ flt : FilterModel, (flt.nodeName.isNull || flt.nodeName.isUnknown) = false →
      (flt.vmID.isNull || flt.vmID.isUnknown) = true →
      readVMConfig { data := d, filter := some flt } api =
        some { diags := [vmIDRequiredDiag], state := none, apiCalls := [] }) := by
  refine ⟨rfl, ?_, ?_⟩
  · intro flt h
    simp [readVMConfig, h]
  · intro flt h1 h2
    simp [readVMConfig, h1, h2]

/-- A remote API that refuses every request, for the C7 witness: the checks
return before it could be consulted. -/
def apiDown : Api :=
  { node := fun _ => Except.error "connection refused"
    vm := fun _ _ => Except.error "connection refused" }

/-- The filter of the C7 witness: node name missing. -/
def fltC7 : FilterModel :=
  { nodeName := TFValue.null, vmID := TFValue.value 100 }

/-- C7 witness: a null node name yields the node-name error and no remote
call even against an unreachable API. -/
theorem c7_precondition_order_witness :
    (fltC7.nodeName.isNull || fltC7.nodeName.isUnknown) = true ∧
    readVMConfig { data := none, filter := some fltC7 } apiDown =
      some { diags := [nodeNameRequiredDiag], state := none, apiCalls := [] } :=
  ⟨by decide, (c7_precondition_order none apiDown).2.1 fltC7 (by decide)⟩

/-- C10: on every Read that sets state, the vm_id of the returned data is
the filter value echoed verbatim — not the identifier of the remote
record — and the filter embedded in the state is the input filter
unchanged. -/
theorem c10_filter_echoed (flt : FilterModel) (api : Api) (d : Option DataModel)
    (res : ReadResult) (st : StateModel) (dm : DataModel)
    (h : readVMConfig { data := d, filter := some flt } api = some res)
    (hs : res.state = some st) (hd : st.data = some dm) :
    dm.vmID = flt.vmID ∧ st.filter = some flt := by
  simp only [readVMConfig] at h
  repeat' split at h
  all_goals try cases h
  all_goals try (simp_all; done)
  all_goals
    (dsimp only at hs
     rw [Option.some_inj] at hs
     subst hs
     dsimp only at hd
     rw [Option.some_inj] at hd
     subst hd
     exact ⟨rfl, rfl⟩)

/-- The VM record of the C10 witness: its own identifier, 999, differs from
the filter value 100. -/
def vmC10 : VMRecord :=
  { name := "vm", node := "pve1", status := "stopped", vmid := 999, vmConfig := none }

/-- A remote API resolving every lookup to the C10 record. -/
def apiC10 : Api :=
  { node := fun _ => Except.ok (), vm := fun _ _ => Except.ok vmC10 }

/-- The filter of the C10 witness. -/
def fltC10 : FilterModel :=
  { nodeName := TFValue.value "pve1", vmID := TFValue.value 100 }

/-- The data block Read produces in the C10 witness scenario. -/
def dmC10 : DataModel :=
  { name := TFValue.value "vm", node := TFValue.value "pve1", networkInterfaces := []
    status := TFValue.value "stopped", vmID := TFValue.value 100 }

/-- The state Read sets in the C10 witness scenario. -/
def stC10 : StateModel :=
  { data := some dmC10, filter := some fltC10 }

/-- The full Read outcome of the C10 witness scenario. -/
def resC10 : ReadResult :=
  { diags := [], state := some stC10
    apiCalls := [ApiCall.nodeLookup "pve1", ApiCall.vmLookup "pve1" 100] }

/-- C10 witness: the remote record carries identifier 999, yet the returned
vm_id is the filter value 100 and the filter is echoed unchanged. -/
theorem c10_filter_echoed_witness :
    readVMConfig { data := none, filter := some fltC10 } apiC10 = some resC10 ∧
    resC10.state = some stC10 ∧ stC10.data = some dmC10 ∧
    (dmC10.vmID = fltC10.vmID ∧ stC10.filter = some fltC10) :=
  ⟨by decide, by decide, by decide,
    c10_filter_echoed fltC10 apiC10 none resC10 stC10 dmC10 (by decide) (by decide) (by decide)⟩
